import Mathlib

/-
Verification of the core of the smart traffic light simulation
(ai_traffic_simulation.py): the signal scheduler (emergency override,
normal priority selection, green-time sizing, yellow-entry reset) and
the vehicle motion model (car-following, turning, crossing detection,
post-crossing removal).  Positions and speeds are embedded as exact
rationals; the simulation clock as natural-number ticks.
-/

namespace Traffic

/-- The four approach directions of the intersection. -/
inductive Direction : Type
  | right
  | down
  | left
  | up
deriving DecidableEq

/-- Vehicle classes from VEHICLE_TYPES in the source. -/
inductive VehicleClass : Type
  | car
  | bus
  | truck
  | rickshaw
  | bike
  | emergency
deriving DecidableEq

/-- VEHICLE_SPEEDS table from the source. -/
def VEHICLE_SPEEDS : VehicleClass → ℚ
  | .car => 1.15
  | .bus => 0.6
  | .truck => 0.6
  | .rickshaw => 0.8
  | .bike => 1.3
  | .emergency => 1.7

/-- VEHICLE_TIMES table from the source: seconds to pass the intersection.
The emergency entry is absent in the source dictionary, modelled as none. -/
def VEHICLE_TIMES : VehicleClass → Option ℚ
  | .car => some 2
  | .bike => some 1
  | .rickshaw => some 2.25
  | .bus => some 2.5
  | .truck => some 2.5
  | .emergency => none

/-- VEHICLE_TIMES.get(vtype, 1) from calculate_green_time: a class with
no clearance entry contributes cost 1. -/
def vehicleTimeOrDefault (c : VehicleClass) : ℚ :=
  (VEHICLE_TIMES c).getD 1

/-- STOP_LINES table from the source. -/
def STOP_LINES : Direction → ℚ
  | .right => 590
  | .down => 330
  | .left => 800
  | .up => 535

/-- DEFAULT_STOPS table from the source. -/
def DEFAULT_STOPS : Direction → ℚ
  | .right => 580
  | .down => 320
  | .left => 810
  | .up => 545

/-- MOVING_GAP constant from the source. -/
def MOVING_GAP : ℚ := 15

/-- ROTATION_ANGLE constant from the source: degrees per tick while turning. -/
def ROTATION_ANGLE : ℕ := 3

/-- NO_OF_LANES constant from the source. -/
def NO_OF_LANES : ℕ := 2

/-- DEFAULT_MINIMUM green bound from the source. -/
def DEFAULT_MINIMUM : ℤ := 10

/-- DEFAULT_MAXIMUM green bound from the source. -/
def DEFAULT_MAXIMUM : ℤ := 60

/-- Turn-trigger x coordinate for the right direction
(TURN_MIDPOINTS for right in the source). -/
def TURN_MID_X_RIGHT : ℚ := 705

/-- DIRECTIONS mapping from signal index to approach direction. -/
def DIRECTIONS (i : Fin 4) : Direction :=
  match i with
  | ⟨0, _⟩ => .right
  | ⟨1, _⟩ => .down
  | ⟨2, _⟩ => .left
  | ⟨3, _⟩ => .up
  | ⟨n + 4, h⟩ => absurd h (by omega)

/-- State of one simulated vehicle (class Vehicle in the source).
The fields w and h stand for the width and height of the current image,
which the source reads via current_image.get_rect(). -/
structure Vehicle : Type where
  lane : ℕ
  vehicleClass : VehicleClass
  direction : Direction
  x : ℚ
  y : ℚ
  w : ℚ
  h : ℚ
  crossed : Bool
  will_turn : Bool
  turned : Bool
  rotate_angle : ℕ
  waiting_time : ℕ
  stop : ℚ
  spawn_time : ℕ
  cross_time : Option ℕ
deriving DecidableEq

/-- Speed of a vehicle, looked up from its class as in Vehicle.__init__. -/
def Vehicle.speed (v : Vehicle) : ℚ :=
  VEHICLE_SPEEDS v.vehicleClass

/-- Per-direction vehicle store: three lane queues plus the crossed
counter (vehicles[direction] in the source). -/
structure DirState : Type where
  lane0 : List Vehicle
  lane1 : List Vehicle
  lane2 : List Vehicle
  crossed : ℕ
deriving DecidableEq

/-- The whole world registry (the global vehicles dictionary). -/
structure World : Type where
  right : DirState
  down : DirState
  left : DirState
  up : DirState
deriving DecidableEq

/-- Look up the per-direction state of the world. -/
def dirState (w : World) : Direction → DirState
  | .right => w.right
  | .down => w.down
  | .left => w.left
  | .up => w.up

/-- The three lanes of a direction, in iteration order lane 0, 1, 2. -/
def DirState.allVehicles (s : DirState) : List Vehicle :=
  s.lane0 ++ s.lane1 ++ s.lane2

/-- Lane queue of a direction by lane index. -/
def laneGet (s : DirState) (ln : Fin 3) : List Vehicle :=
  match ln with
  | ⟨0, _⟩ => s.lane0
  | ⟨1, _⟩ => s.lane1
  | ⟨2, _⟩ => s.lane2
  | ⟨n + 3, h⟩ => absurd h (by omega)

/-- Count of not-yet-crossed vehicles across the three lanes of one
approach, as summed in repeat_signal_cycle. -/
def waitingCountDir (s : DirState) : ℕ :=
  (s.allVehicles.filter (fun v => !v.crossed)).length

/-- Count of not-yet-crossed vehicles of one class on one approach,
as tallied in calculate_green_time. -/
def countClass (s : DirState) (c : VehicleClass) : ℕ :=
  (s.allVehicles.filter (fun v => !v.crossed && decide (v.vehicleClass = c))).length

/- ---------------------------------------------------------------
   Vehicle motion model
   --------------------------------------------------------------- -/

/-- Gap condition on the predecessor for a right-direction mover
(second conjunct of can_move in _move_right_straight): keep MOVING_GAP
behind the previous vehicle in the lane unless it has finished a turn. -/
def predGapRight (pred : Option Vehicle) (v : Vehicle) : Bool :=
  match pred with
  | some p => decide (v.x + v.w < p.x - MOVING_GAP) || p.turned
  | none => true

/-- Gap condition on the predecessor for a left-direction straight mover
(second conjunct of can_move in _move_left_straight).  The source has no
turned escape here. -/
def predGapLeftStraight (pred : Option Vehicle) (v : Vehicle) : Bool :=
  match pred with
  | some p => decide (v.x > p.x + p.w + MOVING_GAP)
  | none => true

/-- Post-turn gap condition for a right-turning vehicle
(can_move in the post-turn branch of _move_right_turn). -/
def predGapRightPostTurn (pred : Option Vehicle) (v : Vehicle) : Bool :=
  match pred with
  | some p => decide (v.y + v.h < p.y - MOVING_GAP) || decide (v.x + v.w < p.x - MOVING_GAP)
  | none => true

/-- Vehicle._move_right_straight.  cg and cy are the globals
current_green and current_yellow; idx is the vehicle index in its lane
queue and pred the vehicle at index idx - 1 when idx is nonzero. -/
def moveRightStraight (cg cy idx : ℕ) (pred : Option Vehicle) (v : Vehicle) : Vehicle :=
  if ((decide (v.x + v.w ≤ v.stop) || v.crossed || (cg == 0 && cy == 0)) &&
      (idx == 0 || predGapRight pred v)) then
    { v with x := v.x + v.speed }
  else v

/-- Vehicle._move_right_turn: pre-turn approach, rotation phase, and
post-turn movement along the new axis. -/
def moveRightTurn (cg cy idx : ℕ) (pred : Option Vehicle) (v : Vehicle) : Vehicle :=
  if (!v.crossed || decide (v.x + v.w < TURN_MID_X_RIGHT)) then
    (if ((decide (v.x + v.w ≤ v.stop) || (cg == 0 && cy == 0) || v.crossed) &&
         (idx == 0 || predGapRight pred v)) then
      { v with x := v.x + v.speed }
    else v)
  else if !v.turned then
    { v with rotate_angle := v.rotate_angle + ROTATION_ANGLE,
             x := v.x + 2,
             y := v.y + 1.8,
             turned := (v.rotate_angle + ROTATION_ANGLE == 90) }
  else
    (if (idx == 0 || predGapRightPostTurn pred v) then
      { v with y := v.y + v.speed }
    else v)

/-- Vehicle._move_right: dispatch between the straight and the turning
variant on will_turn. -/
def moveRight (cg cy idx : ℕ) (pred : Option Vehicle) (v : Vehicle) : Vehicle :=
  if v.will_turn then moveRightTurn cg cy idx pred v
  else moveRightStraight cg cy idx pred v

/-- Vehicle._move_left_straight. -/
def moveLeftStraight (cg cy idx : ℕ) (pred : Option Vehicle) (v : Vehicle) : Vehicle :=
  if ((decide (v.x ≥ v.stop) || v.crossed || (cg == 2 && cy == 0)) &&
      (idx == 0 || predGapLeftStraight pred v)) then
    { v with x := v.x - v.speed }
  else v

/-- Turn-trigger y coordinate for the down direction
(TURN_MIDPOINTS for down in the source). -/
def TURN_MID_Y_DOWN : ℚ := 450

/-- Turn-trigger x coordinate for the left direction
(TURN_MIDPOINTS for left in the source). -/
def TURN_MID_X_LEFT : ℚ := 695

/-- Turn-trigger y coordinate for the up direction
(TURN_MIDPOINTS for up in the source). -/
def TURN_MID_Y_UP : ℚ := 400

/-- Gap condition on the predecessor for a down-direction mover
(second conjunct of can_move in _move_down_straight and in the pre-turn
branch of _move_down_turn). -/
def predGapDown (pred : Option Vehicle) (v : Vehicle) : Bool :=
  match pred with
  | some p => decide (v.y + v.h < p.y - MOVING_GAP) || p.turned
  | none => true

/-- Gap condition on the predecessor for an up-direction mover
(second conjunct of can_move in _move_up_straight and in the pre-turn
branch of _move_up_turn). -/
def predGapUp (pred : Option Vehicle) (v : Vehicle) : Bool :=
  match pred with
  | some p => decide (v.y > p.y + p.h + MOVING_GAP) || p.turned
  | none => true

/-- Gap condition on the predecessor in the pre-turn branch of
_move_left_turn.  Unlike _move_left_straight, this one has the turned
escape. -/
def predGapLeftTurn (pred : Option Vehicle) (v : Vehicle) : Bool :=
  match pred with
  | some p => decide (v.x > p.x + p.w + MOVING_GAP) || p.turned
  | none => true

/-- Post-turn gap condition of _move_down_turn. -/
def predGapDownPostTurn (pred : Option Vehicle) (v : Vehicle) : Bool :=
  match pred with
  | some p =>
    decide (v.x > p.x + p.w + MOVING_GAP) || decide (v.y < p.y - MOVING_GAP)
  | none => true

/-- Post-turn gap condition of _move_left_turn. -/
def predGapLeftPostTurn (pred : Option Vehicle) (v : Vehicle) : Bool :=
  match pred with
  | some p =>
    decide (v.y > p.y + p.h + MOVING_GAP) || decide (v.x > p.x + MOVING_GAP)
  | none => true

/-- Post-turn gap condition of _move_up_turn. -/
def predGapUpPostTurn (pred : Option Vehicle) (v : Vehicle) : Bool :=
  match pred with
  | some p =>
    decide (v.x < p.x - p.w - MOVING_GAP) || decide (v.y > p.y + MOVING_GAP)
  | none => true

/-- Vehicle._move_down_straight. -/
def moveDownStraight (cg cy idx : ℕ) (pred : Option Vehicle) (v : Vehicle) : Vehicle :=
  if ((decide (v.y + v.h ≤ v.stop) || v.crossed || (cg == 1 && cy == 0)) &&
      (idx == 0 || predGapDown pred v)) then
    { v with y := v.y + v.speed }
  else v

/-- Vehicle._move_down_turn: pre-turn approach, rotation phase, and
post-turn movement along the new axis. -/
def moveDownTurn (cg cy idx : ℕ) (pred : Option Vehicle) (v : Vehicle) : Vehicle :=
  if (!v.crossed || decide (v.y + v.h < TURN_MID_Y_DOWN)) then
    (if ((decide (v.y + v.h ≤ v.stop) || (cg == 1 && cy == 0) || v.crossed) &&
         (idx == 0 || predGapDown pred v)) then
      { v with y := v.y + v.speed }
    else v)
  else if !v.turned then
    { v with rotate_angle := v.rotate_angle + ROTATION_ANGLE,
             x := v.x - 2.5,
             y := v.y + 2,
             turned := (v.rotate_angle + ROTATION_ANGLE == 90) }
  else
    (if (idx == 0 || predGapDownPostTurn pred v) then
      { v with x := v.x - v.speed }
    else v)

/-- Vehicle._move_down: dispatch between the straight and the turning
variant on will_turn. -/
def moveDown (cg cy idx : ℕ) (pred : Option Vehicle) (v : Vehicle) : Vehicle :=
  if v.will_turn then moveDownTurn cg cy idx pred v
  else moveDownStraight cg cy idx pred v

/-- Vehicle._move_left_turn: pre-turn approach, rotation phase, and
post-turn movement along the new axis. -/
def moveLeftTurn (cg cy idx : ℕ) (pred : Option Vehicle) (v : Vehicle) : Vehicle :=
  if (!v.crossed || decide (v.x > TURN_MID_X_LEFT)) then
    (if ((decide (v.x ≥ v.stop) || (cg == 2 && cy == 0) || v.crossed) &&
         (idx == 0 || predGapLeftTurn pred v)) then
      { v with x := v.x - v.speed }
    else v)
  else if !v.turned then
    { v with rotate_angle := v.rotate_angle + ROTATION_ANGLE,
             x := v.x - 1.8,
             y := v.y - 2.5,
             turned := (v.rotate_angle + ROTATION_ANGLE == 90) }
  else
    (if (idx == 0 || predGapLeftPostTurn pred v) then
      { v with y := v.y - v.speed }
    else v)

/-- Vehicle._move_left for a vehicle that has not yet crossed: dispatch
between the turning and the straight variant on will_turn.  A crossed
left vehicle is routed by the source to _move_left_after_crossing,
modelled at lane level by moveLeftAfterCrossing. -/
def moveLeft (cg cy idx : ℕ) (pred : Option Vehicle) (v : Vehicle) : Vehicle :=
  if v.will_turn then moveLeftTurn cg cy idx pred v
  else moveLeftStraight cg cy idx pred v

/-- Vehicle._move_up_straight. -/
def moveUpStraight (cg cy idx : ℕ) (pred : Option Vehicle) (v : Vehicle) : Vehicle :=
  if ((decide (v.y ≥ v.stop) || v.crossed || (cg == 3 && cy == 0)) &&
      (idx == 0 || predGapUp pred v)) then
    { v with y := v.y - v.speed }
  else v

/-- Vehicle._move_up_turn: pre-turn approach, rotation phase, and
post-turn movement along the new axis. -/
def moveUpTurn (cg cy idx : ℕ) (pred : Option Vehicle) (v : Vehicle) : Vehicle :=
  if (!v.crossed || decide (v.y > TURN_MID_Y_UP)) then
    (if ((decide (v.y ≥ v.stop) || (cg == 3 && cy == 0) || v.crossed) &&
         (idx == 0 || predGapUp pred v)) then
      { v with y := v.y - v.speed }
    else v)
  else if !v.turned then
    { v with rotate_angle := v.rotate_angle + ROTATION_ANGLE,
             x := v.x + 1,
             y := v.y - 1,
             turned := (v.rotate_angle + ROTATION_ANGLE == 90) }
  else
    (if (idx == 0 || predGapUpPostTurn pred v) then
      { v with x := v.x + v.speed }
    else v)

/-- Vehicle._move_up: dispatch between the straight and the turning
variant on will_turn. -/
def moveUp (cg cy idx : ℕ) (pred : Option Vehicle) (v : Vehicle) : Vehicle :=
  if v.will_turn then moveUpTurn cg cy idx pred v
  else moveUpStraight cg cy idx pred v

/-- Vehicle._move_left_after_crossing, acting on the whole lane queue:
look for the nearest predecessor still on scene, advance when
unobstructed, otherwise remove the vehicle once its trailing edge has
left the scene.  The source moves first and only reaches the removal
check when the vehicle was blocked. -/
def moveLeftAfterCrossing (lane_list : List Vehicle) (idx : ℕ) : List Vehicle :=
  match lane_list[idx]? with
  | none => lane_list
  | some v =>
    match ((lane_list.take idx).reverse).find? (fun p => decide (p.x + p.w > 0)) with
    | none => lane_list.set idx { v with x := v.x - v.speed }
    | some a =>
      if decide (v.x > a.x + a.w + MOVING_GAP) then
        lane_list.set idx { v with x := v.x - v.speed }
      else if decide (v.x + v.w < -10) then
        lane_list.eraseIdx idx
      else lane_list

/- ---------------------------------------------------------------
   Crossing detection
   --------------------------------------------------------------- -/

/-- Whether the leading edge of the vehicle has passed the stop-line
coordinate of its direction (the four comparisons of _check_crossing). -/
def leadPastLine (v : Vehicle) : Bool :=
  match v.direction with
  | .right => decide (v.x + v.w > STOP_LINES .right)
  | .down => decide (v.y + v.h > STOP_LINES .down)
  | .left => decide (v.x < STOP_LINES .left)
  | .up => decide (v.y < STOP_LINES .up)

/-- Ambient state read and written by _mark_crossed: the simulation
clock, the global waiting-time series, and the crossed counter of the
vehicle direction. -/
structure CrossingEnv : Type where
  time_elapsed : ℕ
  waiting_times : List ℤ
  crossed_count : ℕ
deriving DecidableEq

/-- Vehicle._check_crossing followed by Vehicle._mark_crossed: a
one-way guarded transition of the crossed flag that records the
crossing tick, appends the wait duration and bumps the counter. -/
def checkCrossing (env : CrossingEnv) (v : Vehicle) : Vehicle × CrossingEnv :=
  if !v.crossed && leadPastLine v then
    ({ v with crossed := true, cross_time := some env.time_elapsed },
     { env with
        waiting_times :=
          env.waiting_times ++ [(env.time_elapsed : ℤ) - (v.spawn_time : ℤ)],
        crossed_count := env.crossed_count + 1 })
  else (v, env)

/- ---------------------------------------------------------------
   Signal scheduler: emergency override selection
   --------------------------------------------------------------- -/

/-- Arrival-order proxy computed in repeat_signal_cycle for an
emergency vehicle: v.x for right, minus v.x for left, v.y for up and
minus v.y for down, exactly as in the source. -/
def arrivalEstimate (d : Direction) (v : Vehicle) : ℚ :=
  match d with
  | .right => v.x
  | .left => -v.x
  | .up => v.y
  | .down => -v.y

/-- Arrival-order proxies of the uncrossed emergency vehicles of one
approach, in lane-major scan order. -/
def emergencyEstimates (d : Direction) (s : DirState) : List ℚ :=
  (s.allVehicles.filter
    (fun v => !v.crossed && decide (v.vehicleClass = .emergency))).map (arrivalEstimate d)

/-- All emergency candidates of the world paired with their signal
index, scanned in the order of the source loop. -/
def emergencyCandidates (w : World) : List (ℚ × Fin 4) :=
  (emergencyEstimates .right w.right).map (fun q => (q, 0)) ++
  (emergencyEstimates .down w.down).map (fun q => (q, 1)) ++
  (emergencyEstimates .left w.left).map (fun q => (q, 2)) ++
  (emergencyEstimates .up w.up).map (fun q => (q, 3))

/-- Running minimum over the candidate scan, strict comparison as in
the source, so the first candidate wins ties. -/
def emergencyScanStep (best : Option (ℚ × Fin 4)) (c : ℚ × Fin 4) : Option (ℚ × Fin 4) :=
  match best with
  | none => some c
  | some b => if c.1 < b.1 then some c else some b

/-- The approach selected by the emergency override of
repeat_signal_cycle, or none when no uncrossed emergency exists. -/
def emergencySelected (w : World) : Option (Fin 4) :=
  ((emergencyCandidates w).foldl emergencyScanStep none).map (fun b => b.2)

/-- Remaining distance from the leading edge of the vehicle to the
stop line of its direction, with the same per-direction geometry as the
crossing predicate: positive while the vehicle has not reached the
line, and smaller means nearer. -/
def distToStopLine (v : Vehicle) : ℚ :=
  match v.direction with
  | .right => STOP_LINES .right - (v.x + v.w)
  | .down => STOP_LINES .down - (v.y + v.h)
  | .left => v.x - STOP_LINES .left
  | .up => v.y - STOP_LINES .up

/- ---------------------------------------------------------------
   Signal scheduler: normal priority selection
   --------------------------------------------------------------- -/

/-- Priority score of one approach in the normal branch of
repeat_signal_cycle: waiting count plus a fifth of the seconds since
the approach last held green, or zero when nothing waits.  tl is the
simulation clock and lg the lane_last_green_time array. -/
def priorityOf (w : World) (tl : ℤ) (lg : Fin 4 → ℤ) (i : Fin 4) : ℚ :=
  if 0 < waitingCountDir (dirState w (DIRECTIONS i)) then
    (waitingCountDir (dirState w (DIRECTIONS i)) : ℚ) + (0.2 : ℚ) * ((tl - lg i : ℤ) : ℚ)
  else 0

/-- The list of (priority, signal index) pairs built by the loop over
the four signals. -/
def normalEntries (w : World) (tl : ℤ) (lg : Fin 4 → ℤ) : List (ℚ × Fin 4) :=
  [(priorityOf w tl lg 0, 0), (priorityOf w tl lg 1, 1),
   (priorityOf w tl lg 2, 2), (priorityOf w tl lg 3, 3)]

/-- The element that Python places first after sorting the entry list
in reverse: the one with the larger priority, and on equal priorities
the one with the larger signal index. -/
def betterEntry (a b : ℚ × Fin 4) : ℚ × Fin 4 :=
  if b.1 < a.1 then a
  else if a.1 < b.1 then b
  else if b.2 ≤ a.2 then a else b

/-- The approach selected by the normal branch of repeat_signal_cycle:
drop entries with nonpositive priority, and take the head of the
reverse-sorted remainder; none models the idle-and-retry path. -/
def selectNormal (w : World) (tl : ℤ) (lg : Fin 4 → ℤ) : Option (Fin 4) :=
  match (normalEntries w tl lg).filter (fun e => decide (0 < e.1)) with
  | [] => none
  | e :: rest => some (rest.foldl betterEntry e).2

/- ---------------------------------------------------------------
   Green-time sizing
   --------------------------------------------------------------- -/

/-- Nonlinear green-time formula applied at selection time in
repeat_signal_cycle: round 8 plus the waiting count to the power 0.85,
then clamp to the minimum and maximum green bounds. -/
noncomputable def nonlinearGreenTime (wc : ℕ) : ℤ :=
  max DEFAULT_MINIMUM (min DEFAULT_MAXIMUM (round ((8 : ℝ) + (wc : ℝ) ^ (0.85 : ℝ))))

/-- Weighted clearance total of calculate_green_time: per-class counts
of uncrossed vehicles times per-class clearance cost, a class without a
clearance entry costing 1. -/
def lookAheadTotal (s : DirState) : ℚ :=
  ([VehicleClass.car, .bus, .truck, .rickshaw, .bike, .emergency].map
    (fun c => (countClass s c : ℚ) * vehicleTimeOrDefault c)).sum

/-- calculate_green_time: size the pending green of the next signal
from the weighted clearance total, divided by the lane count plus one,
rounded up and clamped. -/
def calculate_green_time (w : World) (cg : Fin 4) : ℤ :=
  max DEFAULT_MINIMUM (min DEFAULT_MAXIMUM
    ⌈lookAheadTotal (dirState w (DIRECTIONS (cg + 1))) / ((NO_OF_LANES : ℚ) + 1)⌉)

/- ---------------------------------------------------------------
   Yellow-entry stop reset
   --------------------------------------------------------------- -/

/-- Reset one vehicle to the default stop line of a direction, as done
for every vehicle of the active approach when green reaches zero. -/
def setStopDefault (d : Direction) (v : Vehicle) : Vehicle :=
  { v with stop := DEFAULT_STOPS d }

/-- Apply the stop reset to all three lanes of one approach. -/
def resetDirStops (d : Direction) (s : DirState) : DirState :=
  { s with lane0 := s.lane0.map (setStopDefault d),
           lane1 := s.lane1.map (setStopDefault d),
           lane2 := s.lane2.map (setStopDefault d) }

/-- The yellow-entry transition of repeat_signal_cycle: set
current_yellow to 1 and reset the stop positions of every vehicle of
the active approach; the second component is the new current_yellow. -/
def yellowEntry (cg : Fin 4) (w : World) : World × ℕ :=
  match DIRECTIONS cg with
  | .right => ({ w with right := resetDirStops .right w.right }, 1)
  | .down => ({ w with down := resetDirStops .down w.down }, 1)
  | .left => ({ w with left := resetDirStops .left w.left }, 1)
  | .up => ({ w with up := resetDirStops .up w.up }, 1)

/- ---------------------------------------------------------------
   Vehicle generation: turn intent
   --------------------------------------------------------------- -/

/-- Turn-intent decision of generate_vehicles as a function of the
uniform draw over zero to four: lane 2 turns when the draw is at most
2, other lanes never turn. -/
def willTurnAtSpawn (lane : ℕ) (draw : ℕ) : ℕ :=
  if lane = 2 then (if draw ≤ 2 then 1 else 0) else 0

/- ---------------------------------------------------------------
   Concrete states used by witnesses and counterexamples
   --------------------------------------------------------------- -/

/-- Fresh vehicle with the given class, direction, geometry, and all
flags in their spawn state. -/
def mkVehicle (d : Direction) (c : VehicleClass) (px py pw ph : ℚ) : Vehicle :=
  { lane := 0, vehicleClass := c, direction := d, x := px, y := py, w := pw, h := ph,
    crossed := false, will_turn := false, turned := false, rotate_angle := 0,
    waiting_time := 0, stop := DEFAULT_STOPS d, spawn_time := 0, cross_time := none }

/-- Empty per-direction state. -/
def emptyDir : DirState := ⟨[], [], [], 0⟩

/-- Empty world. -/
def emptyWorld : World := ⟨emptyDir, emptyDir, emptyDir, emptyDir⟩

/-- Uncrossed emergency vehicle on the right approach, 30 units short
of its stop line. -/
def emR : Vehicle := mkVehicle .right .emergency 550 348 10 10

/-- Uncrossed emergency vehicle on the left approach at its spawn
point, 600 units short of its stop line. -/
def emL : Vehicle := mkVehicle .left .emergency 1400 498 10 10

/-- World with one emergency vehicle on the right approach near its
stop line and one on the left approach far from its stop line. -/
def wEmergencyPair : World :=
  { emptyWorld with
    right := { emptyDir with lane0 := [emR] },
    left := { emptyDir with lane0 := [emL] } }

/-- Ordinary uncrossed car on the right approach. -/
def carR : Vehicle := mkVehicle .right .car 100 348 10 10

/-- Ordinary uncrossed car on the down approach. -/
def carD : Vehicle := mkVehicle .down .car 727 100 10 10

/-- Scenario world of the spec: 12 waiting vehicles on the right
approach and 3 on the down approach. -/
def wScenario : World :=
  { emptyWorld with
    right := { emptyDir with lane0 := List.replicate 12 carR },
    down := { emptyDir with lane0 := List.replicate 3 carD } }

/-- Last-green times of the scenario: the right approach served 40
seconds before clock 40, the down approach 5 seconds before. -/
def lgScenario : Fin 4 → ℤ :=
  fun i => if i = 0 then 0 else if i = 1 then 35 else 40

/-- Tie world: five waiting vehicles each on the right and the down
approach, equal last-green times. -/
def wTie : World :=
  { emptyWorld with
    right := { emptyDir with lane0 := List.replicate 5 carR },
    down := { emptyDir with lane0 := List.replicate 5 carD } }

/-- All-zero last-green times. -/
def lgZero : Fin 4 → ℤ := fun _ => 0

/-- World whose right approach holds 31 uncrossed emergency vehicles
and nothing else. -/
def wEmergency31 : World :=
  { emptyWorld with right := { emptyDir with lane0 := List.replicate 31 emR } }

/-- Crossed right-direction car with intent to turn, leading edge past
the turn trigger and rotation not finished: the state that enters the
rotation phase of _move_right_turn. -/
def turnCar : Vehicle :=
  { mkVehicle .right .car 700 400 20 10 with will_turn := true, crossed := true }

/-- Crossed left-direction car fully beyond the visible scene bound. -/
def offSceneCar : Vehicle :=
  { mkVehicle .left .car (-50) 498 25 10 with crossed := true }

/-- Uncrossed, unturned predecessor on the right approach, well ahead
of carR. -/
def predCarR : Vehicle := mkVehicle .right .car 300 348 10 10

/-- Follower on the left approach, behind predCarL. -/
def followLeft : Vehicle := mkVehicle .left .car 1000 498 10 10

/-- Predecessor on the left approach, ahead of followLeft. -/
def predCarL : Vehicle := mkVehicle .left .car 900 498 10 10

/-- Right-direction car whose leading edge is past its stop line,
spawned at tick 2. -/
def crossingCar : Vehicle :=
  { mkVehicle .right .car 585 348 10 10 with spawn_time := 2 }

/- ---------------------------------------------------------------
   Helper lemmas
   --------------------------------------------------------------- -/

/-- Every class speed is at most the emergency speed 1.7. -/
theorem VEHICLE_SPEEDS_le (c : VehicleClass) : VEHICLE_SPEEDS c ≤ 1.7 := by
  cases c <;> norm_num [VEHICLE_SPEEDS]

/-- Every class speed is positive. -/
theorem VEHICLE_SPEEDS_pos (c : VehicleClass) : 0 < VEHICLE_SPEEDS c := by
  cases c <;> norm_num [VEHICLE_SPEEDS]

/-- Order in which Python places reverse-sorted entries: larger
priority first, larger signal index first on equal priorities. -/
def lexLE (a b : ℚ × Fin 4) : Prop :=
  a.1 < b.1 ∨ (a.1 = b.1 ∧ a.2 ≤ b.2)

theorem lexLE_refl (a : ℚ × Fin 4) : lexLE a a :=
  Or.inr ⟨rfl, le_refl _⟩

theorem lexLE_trans {a b c : ℚ × Fin 4} (h₁ : lexLE a b) (h₂ : lexLE b c) : lexLE a c := by
  rcases h₁ with h₁ | ⟨e₁, l₁⟩ <;> rcases h₂ with h₂ | ⟨e₂, l₂⟩
  · exact Or.inl (lt_trans h₁ h₂)
  · exact Or.inl (e₂ ▸ h₁)
  · exact Or.inl (e₁ ▸ h₂)
  · exact Or.inr ⟨e₁.trans e₂, le_trans l₁ l₂⟩

theorem betterEntry_eq_or (a b : ℚ × Fin 4) : betterEntry a b = a ∨ betterEntry a b = b := by
  unfold betterEntry
  split_ifs <;> simp

theorem lexLE_left_betterEntry (a b : ℚ × Fin 4) : lexLE a (betterEntry a b) := by
  unfold betterEntry
  split_ifs with h1 h2 h3
  · exact lexLE_refl a
  · exact Or.inl h2
  · exact lexLE_refl a
  · exact Or.inr ⟨le_antisymm (not_lt.mp h1) (not_lt.mp h2), le_of_not_le h3⟩

theorem lexLE_right_betterEntry (a b : ℚ × Fin 4) : lexLE b (betterEntry a b) := by
  unfold betterEntry
  split_ifs with h1 h2 h3
  · exact Or.inl h1
  · exact lexLE_refl b
  · exact Or.inr ⟨(le_antisymm (not_lt.mp h1) (not_lt.mp h2)).symm, h3⟩
  · exact lexLE_refl b

theorem foldl_betterEntry_mem (l : List (ℚ × Fin 4)) :
    ∀ e, l.foldl betterEntry e = e ∨ l.foldl betterEntry e ∈ l := by
  induction l with
  | nil => intro e; exact Or.inl rfl
  | cons c t ih =>
    intro e
    rcases ih (betterEntry e c) with h | h
    · rcases betterEntry_eq_or e c with h2 | h2
      · left
        rw [List.foldl_cons, h, h2]
      · right
        rw [List.foldl_cons, h, h2]
        exact List.mem_cons_self _ _
    · right
      rw [List.foldl_cons]
      exact List.mem_cons_of_mem _ h

theorem foldl_betterEntry_ge (l : List (ℚ × Fin 4)) :
    ∀ e, lexLE e (l.foldl betterEntry e) ∧ ∀ a ∈ l, lexLE a (l.foldl betterEntry e) := by
  induction l with
  | nil =>
    intro e
    refine ⟨lexLE_refl e, ?_⟩
    intro a ha
    simp at ha
  | cons c t ih =>
    intro e
    obtain ⟨h1, h2⟩ := ih (betterEntry e c)
    constructor
    · rw [List.foldl_cons]
      exact lexLE_trans (lexLE_left_betterEntry e c) h1
    · intro a ha
      rw [List.foldl_cons]
      rcases List.mem_cons.mp ha with rfl | ha
      · exact lexLE_trans (lexLE_right_betterEntry e a) h1
      · exact h2 a ha

/-- Every signal entry is a member of the entry list. -/
theorem mem_normalEntries (w : World) (tl : ℤ) (lg : Fin 4 → ℤ) (i : Fin 4) :
    (priorityOf w tl lg i, i) ∈ normalEntries w tl lg := by
  fin_cases i <;> simp [normalEntries]

/-- One-step no-overtake for the right straight mover. -/
theorem fifoStep_right_straight (cg cy idx : ℕ) (p v : Vehicle) (hidx : idx ≠ 0)
    (hpt : p.turned = false) (hlt : v.x + v.w < p.x) :
    (moveRightStraight cg cy idx (some p) v).x
      + (moveRightStraight cg cy idx (some p) v).w < p.x := by
  have hsp := VEHICLE_SPEEDS_le v.vehicleClass
  unfold moveRightStraight
  split_ifs with h
  · simp only [Bool.and_eq_true, Bool.or_eq_true, decide_eq_true_eq,
      beq_iff_eq, predGapRight] at h
    obtain ⟨-, h2⟩ := h
    rcases h2 with h2 | h2 | h2
    · exact absurd h2 hidx
    · show v.x + v.speed + v.w < p.x
      simp only [Vehicle.speed]
      simp only [MOVING_GAP] at h2
      norm_num at hsp ⊢
      linarith
    · rw [hpt] at h2
      exact absurd h2 (by simp)
  · exact hlt

/-- One-step no-overtake for the left straight mover. -/
theorem fifoStep_left_straight (cg cy idx : ℕ) (p v : Vehicle) (hidx : idx ≠ 0)
    (hgt : v.x > p.x + p.w) :
    (moveLeftStraight cg cy idx (some p) v).x > p.x + p.w := by
  have hsp := VEHICLE_SPEEDS_le v.vehicleClass
  unfold moveLeftStraight
  split_ifs with h
  · simp only [Bool.and_eq_true, Bool.or_eq_true, decide_eq_true_eq,
      beq_iff_eq, predGapLeftStraight] at h
    obtain ⟨-, h2⟩ := h
    rcases h2 with h2 | h2
    · exact absurd h2 hidx
    · show v.x - v.speed > p.x + p.w
      simp only [Vehicle.speed]
      simp only [MOVING_GAP] at h2
      norm_num at hsp ⊢
      linarith
  · exact hgt

/-- One-step no-overtake for the down straight mover. -/
theorem fifoStep_down_straight (cg cy idx : ℕ) (p v : Vehicle) (hidx : idx ≠ 0)
    (hpt : p.turned = false) (hlt : v.y + v.h < p.y) :
    (moveDownStraight cg cy idx (some p) v).y
      + (moveDownStraight cg cy idx (some p) v).h < p.y := by
  have hsp := VEHICLE_SPEEDS_le v.vehicleClass
  unfold moveDownStraight
  split_ifs with h
  · simp only [Bool.and_eq_true, Bool.or_eq_true, decide_eq_true_eq,
      beq_iff_eq, predGapDown] at h
    obtain ⟨-, h2⟩ := h
    rcases h2 with h2 | h2 | h2
    · exact absurd h2 hidx
    · show v.y + v.speed + v.h < p.y
      simp only [Vehicle.speed]
      simp only [MOVING_GAP] at h2
      norm_num at hsp ⊢
      linarith
    · rw [hpt] at h2
      exact absurd h2 (by simp)
  · exact hlt

/-- One-step no-overtake for the up straight mover. -/
theorem fifoStep_up_straight (cg cy idx : ℕ) (p v : Vehicle) (hidx : idx ≠ 0)
    (hpt : p.turned = false) (hgt : v.y > p.y + p.h) :
    (moveUpStraight cg cy idx (some p) v).y > p.y + p.h := by
  have hsp := VEHICLE_SPEEDS_le v.vehicleClass
  unfold moveUpStraight
  split_ifs with h
  · simp only [Bool.and_eq_true, Bool.or_eq_true, decide_eq_true_eq,
      beq_iff_eq, predGapUp] at h
    obtain ⟨-, h2⟩ := h
    rcases h2 with h2 | h2 | h2
    · exact absurd h2 hidx
    · show v.y - v.speed > p.y + p.h
      simp only [Vehicle.speed]
      simp only [MOVING_GAP] at h2
      norm_num at hsp ⊢
      linarith
    · rw [hpt] at h2
      exact absurd h2 (by simp)
  · exact hgt

/-- One-step no-overtake for the right turning mover while uncrossed:
the vehicle is still in its pre-turn approach phase. -/
theorem fifoStep_right_turn (cg cy idx : ℕ) (p v : Vehicle) (hidx : idx ≠ 0)
    (hvc : v.crossed = false) (hpt : p.turned = false) (hlt : v.x + v.w < p.x) :
    (moveRightTurn cg cy idx (some p) v).x
      + (moveRightTurn cg cy idx (some p) v).w < p.x := by
  have hsp := VEHICLE_SPEEDS_le v.vehicleClass
  unfold moveRightTurn
  split_ifs with h1 h2 h3 h4
  · simp only [Bool.and_eq_true, Bool.or_eq_true, decide_eq_true_eq,
      beq_iff_eq, predGapRight] at h2
    obtain ⟨-, h2⟩ := h2
    rcases h2 with h2 | h2 | h2
    · exact absurd h2 hidx
    · show v.x + v.speed + v.w < p.x
      simp only [Vehicle.speed]
      simp only [MOVING_GAP] at h2
      norm_num at hsp ⊢
      linarith
    · rw [hpt] at h2
      exact absurd h2 (by simp)
  · exact hlt
  · simp [hvc] at h1
  · simp [hvc] at h1
  · simp [hvc] at h1

/-- One-step no-overtake for the down turning mover while uncrossed. -/
theorem fifoStep_down_turn (cg cy idx : ℕ) (p v : Vehicle) (hidx : idx ≠ 0)
    (hvc : v.crossed = false) (hpt : p.turned = false) (hlt : v.y + v.h < p.y) :
    (moveDownTurn cg cy idx (some p) v).y
      + (moveDownTurn cg cy idx (some p) v).h < p.y := by
  have hsp := VEHICLE_SPEEDS_le v.vehicleClass
  unfold moveDownTurn
  split_ifs with h1 h2 h3 h4
  · simp only [Bool.and_eq_true, Bool.or_eq_true, decide_eq_true_eq,
      beq_iff_eq, predGapDown] at h2
    obtain ⟨-, h2⟩ := h2
    rcases h2 with h2 | h2 | h2
    · exact absurd h2 hidx
    · show v.y + v.speed + v.h < p.y
      simp only [Vehicle.speed]
      simp only [MOVING_GAP] at h2
      norm_num at hsp ⊢
      linarith
    · rw [hpt] at h2
      exact absurd h2 (by simp)
  · exact hlt
  · simp [hvc] at h1
  · simp [hvc] at h1
  · simp [hvc] at h1

/-- One-step no-overtake for the left turning mover while uncrossed. -/
theorem fifoStep_left_turn (cg cy idx : ℕ) (p v : Vehicle) (hidx : idx ≠ 0)
    (hvc : v.crossed = false) (hpt : p.turned = false) (hgt : v.x > p.x + p.w) :
    (moveLeftTurn cg cy idx (some p) v).x > p.x + p.w := by
  have hsp := VEHICLE_SPEEDS_le v.vehicleClass
  unfold moveLeftTurn
  split_ifs with h1 h2 h3 h4
  · simp only [Bool.and_eq_true, Bool.or_eq_true, decide_eq_true_eq,
      beq_iff_eq, predGapLeftTurn] at h2
    obtain ⟨-, h2⟩ := h2
    rcases h2 with h2 | h2 | h2
    · exact absurd h2 hidx
    · show v.x - v.speed > p.x + p.w
      simp only [Vehicle.speed]
      simp only [MOVING_GAP] at h2
      norm_num at hsp ⊢
      linarith
    · rw [hpt] at h2
      exact absurd h2 (by simp)
  · exact hgt
  · simp [hvc] at h1
  · simp [hvc] at h1
  · simp [hvc] at h1

/-- One-step no-overtake for the up turning mover while uncrossed. -/
theorem fifoStep_up_turn (cg cy idx : ℕ) (p v : Vehicle) (hidx : idx ≠ 0)
    (hvc : v.crossed = false) (hpt : p.turned = false) (hgt : v.y > p.y + p.h) :
    (moveUpTurn cg cy idx (some p) v).y > p.y + p.h := by
  have hsp := VEHICLE_SPEEDS_le v.vehicleClass
  unfold moveUpTurn
  split_ifs with h1 h2 h3 h4
  · simp only [Bool.and_eq_true, Bool.or_eq_true, decide_eq_true_eq,
      beq_iff_eq, predGapUp] at h2
    obtain ⟨-, h2⟩ := h2
    rcases h2 with h2 | h2 | h2
    · exact absurd h2 hidx
    · show v.y - v.speed > p.y + p.h
      simp only [Vehicle.speed]
      simp only [MOVING_GAP] at h2
      norm_num at hsp ⊢
      linarith
    · rw [hpt] at h2
      exact absurd h2 (by simp)
  · exact hgt
  · simp [hvc] at h1
  · simp [hvc] at h1
  · simp [hvc] at h1

/- ---------------------------------------------------------------
   Claim theorems
   --------------------------------------------------------------- -/

/-- C1: emergency override selection.  The claim states that the
arrival-order proxy always compares nearer-to-stop-line as smaller and
that the approach of the nearer emergency vehicle is always selected.
The code evaluated here shows the opposite on the horizontal axes: the
right-approach emergency vehicle is 30 units from its stop line and the
left-approach one 600 units, yet the scan selects the left approach
(index 2), because the proxy is v.x for right and minus v.x for left,
which ranks vehicles farther from those stop lines as earlier. -/
theorem emergency_selection_prefers_farther_on_horizontal :
    emergencySelected wEmergencyPair = some 2 ∧
    DIRECTIONS 2 = .left ∧
    emR.direction = .right ∧ emL.direction = .left ∧
    emR.crossed = false ∧ emL.crossed = false ∧
    emR.vehicleClass = .emergency ∧ emL.vehicleClass = .emergency ∧
    distToStopLine emR < distToStopLine emL := by
  refine ⟨?_, rfl, rfl, rfl, rfl, rfl, rfl, rfl, ?_⟩
  · norm_num [emergencySelected, emergencyCandidates, emergencyEstimates,
      emergencyScanStep, wEmergencyPair, emptyWorld, emptyDir,
      emR, emL, mkVehicle, arrivalEstimate, DirState.allVehicles, DEFAULT_STOPS]
  · norm_num [distToStopLine, emR, emL, mkVehicle, STOP_LINES, DEFAULT_STOPS]

/-- C9: vehicle removal.  The claim states that a crossed vehicle whose
trailing edge has passed the scene bound does not remain in its queue.
In the code the removal check of _move_left_after_crossing is reached
only when the vehicle is blocked by an on-scene predecessor: an
unobstructed crossed vehicle fully beyond the bound keeps moving left
and stays in its lane queue, as evaluated here. -/
theorem offscreen_crossed_vehicle_not_removed :
    offSceneCar.crossed = true ∧
    offSceneCar.x + offSceneCar.w < -10 ∧
    moveLeftAfterCrossing [offSceneCar] 0
      = [{ offSceneCar with x := offSceneCar.x - offSceneCar.speed }] ∧
    (moveLeftAfterCrossing [offSceneCar] 0).length = 1 := by
  refine ⟨rfl, ?_, ?_, ?_⟩
  · norm_num [offSceneCar, mkVehicle]
  · simp [moveLeftAfterCrossing, offSceneCar, mkVehicle, Vehicle.speed,
      VEHICLE_SPEEDS, DEFAULT_STOPS, List.set]
  · simp [moveLeftAfterCrossing, offSceneCar, mkVehicle, Vehicle.speed,
      VEHICLE_SPEEDS, DEFAULT_STOPS, List.set]

/-- C10: turn intent at spawn.  Lanes 0 and 1 never turn, lane 2 turns
exactly when the uniform draw over 0..4 is at most 2, which is 3 of the
5 equally likely outcomes, a fraction of 3/5 and not the roughly 0.3
stated by the spec and by the comment in generate_vehicles. -/
theorem turn_intent_spawn_fraction :
    ((List.range 5).filter (fun draw => willTurnAtSpawn 2 draw == 1)).length = 3 ∧
    (List.range 5).length = 5 ∧
    (∀ draw, willTurnAtSpawn 0 draw = 0) ∧
    (∀ draw, willTurnAtSpawn 1 draw = 0) ∧
    (3 : ℚ) / 5 ≠ 3 / 10 := by
  refine ⟨by decide, by decide, ?_, ?_, by norm_num⟩
  · intro draw; rfl
  · intro draw; rfl

/-- C4: lane-queue FIFO invariant.  For a follower that is not at the
head of its lane queue, one motion step never puts its leading edge
past the predecessor, in every direction: the four straight movers
preserve the ordering whenever the predecessor has not completed a turn
(the left straight mover even unconditionally), and the four full
dispatchers, covering the pre-turn approach phase of lane-2 turning
vehicles, preserve it for an uncrossed follower.  The gating escapes
are exactly index 0, the MOVING_GAP clearance, and a predecessor that
finished its turn.  The leading edge is x plus width for right, y plus
height for down, x for left, and y for up, compared against the
predecessor's trailing edge on the same axis. -/
theorem lane_fifo_preserved_step (cg cy idx : ℕ) (p v : Vehicle) (hidx : idx ≠ 0) :
    (p.turned = false → v.x + v.w < p.x →
      (moveRightStraight cg cy idx (some p) v).x
        + (moveRightStraight cg cy idx (some p) v).w < p.x) ∧
    (v.x > p.x + p.w →
      (moveLeftStraight cg cy idx (some p) v).x > p.x + p.w) ∧
    (p.turned = false → v.y + v.h < p.y →
      (moveDownStraight cg cy idx (some p) v).y
        + (moveDownStraight cg cy idx (some p) v).h < p.y) ∧
    (p.turned = false → v.y > p.y + p.h →
      (moveUpStraight cg cy idx (some p) v).y > p.y + p.h) ∧
    (v.crossed = false → p.turned = false → v.x + v.w < p.x →
      (moveRight cg cy idx (some p) v).x
        + (moveRight cg cy idx (some p) v).w < p.x) ∧
    (v.crossed = false → p.turned = false → v.y + v.h < p.y →
      (moveDown cg cy idx (some p) v).y
        + (moveDown cg cy idx (some p) v).h < p.y) ∧
    (v.crossed = false → p.turned = false → v.x > p.x + p.w →
      (moveLeft cg cy idx (some p) v).x > p.x + p.w) ∧
    (v.crossed = false → p.turned = false → v.y > p.y + p.h →
      (moveUp cg cy idx (some p) v).y > p.y + p.h) := by
  refine ⟨?_, ?_, ?_, ?_, ?_, ?_, ?_, ?_⟩
  · exact fun hpt hlt => fifoStep_right_straight cg cy idx p v hidx hpt hlt
  · exact fun hgt => fifoStep_left_straight cg cy idx p v hidx hgt
  · exact fun hpt hlt => fifoStep_down_straight cg cy idx p v hidx hpt hlt
  · exact fun hpt hgt => fifoStep_up_straight cg cy idx p v hidx hpt hgt
  · intro hvc hpt hlt
    unfold moveRight
    split_ifs with hw
    · exact fifoStep_right_turn cg cy idx p v hidx hvc hpt hlt
    · exact fifoStep_right_straight cg cy idx p v hidx hpt hlt
  · intro hvc hpt hlt
    unfold moveDown
    split_ifs with hw
    · exact fifoStep_down_turn cg cy idx p v hidx hvc hpt hlt
    · exact fifoStep_down_straight cg cy idx p v hidx hpt hlt
  · intro hvc hpt hgt
    unfold moveLeft
    split_ifs with hw
    · exact fifoStep_left_turn cg cy idx p v hidx hvc hpt hgt
    · exact fifoStep_left_straight cg cy idx p v hidx hgt
  · intro hvc hpt hgt
    unfold moveUp
    split_ifs with hw
    · exact fifoStep_up_turn cg cy idx p v hidx hvc hpt hgt
    · exact fifoStep_up_straight cg cy idx p v hidx hpt hgt

/-- Witness for C4 at concrete vehicles: a car behind a car on the
right approach through the full dispatcher, and a car behind a car on
the left approach through the straight mover. -/
theorem lane_fifo_preserved_step_witness :
    (moveRight 0 0 1 (some predCarR) carR).x
      + (moveRight 0 0 1 (some predCarR) carR).w < predCarR.x ∧
    (moveLeftStraight 0 0 1 (some predCarL) followLeft).x > predCarL.x + predCarL.w := by
  constructor
  · exact (lane_fifo_preserved_step 0 0 1 predCarR carR (by decide)).2.2.2.2.1 rfl rfl
      (by norm_num [carR, predCarR, mkVehicle, DEFAULT_STOPS])
  · exact (lane_fifo_preserved_step 0 0 1 predCarL followLeft (by decide)).2.1
      (by norm_num [followLeft, predCarL, mkVehicle, DEFAULT_STOPS])

/-- C5 counterexample: a right-direction car in the rotation phase of
its turn moves by the fixed displacement of 2 along x and 1.8 along y
in a single tick, changing both coordinates at once and exceeding its
class speed of 1.15, contradicting the claim that a motion step changes
the position by at most one class-speed unit along one axis or not at
all. -/
theorem rotation_displacement_cex :
    (moveRight 0 0 0 none turnCar).x = turnCar.x + 2 ∧
    (moveRight 0 0 0 none turnCar).y = turnCar.y + 1.8 ∧
    (moveRight 0 0 0 none turnCar).x ≠ turnCar.x ∧
    (moveRight 0 0 0 none turnCar).y ≠ turnCar.y ∧
    turnCar.speed < 2 ∧ turnCar.speed < 1.8 := by
  have h : (moveRight 0 0 0 none turnCar).x = turnCar.x + 2 ∧
      (moveRight 0 0 0 none turnCar).y = turnCar.y + 1.8 := by
    simp [moveRight, moveRightTurn, turnCar, mkVehicle, TURN_MID_X_RIGHT,
      DEFAULT_STOPS, ROTATION_ANGLE]
    norm_num
  refine ⟨h.1, h.2, ?_, ?_, ?_, ?_⟩
  · rw [h.1]; norm_num [turnCar, mkVehicle, DEFAULT_STOPS]
  · rw [h.2]; norm_num [turnCar, mkVehicle, DEFAULT_STOPS]
  · norm_num [turnCar, mkVehicle, Vehicle.speed, VEHICLE_SPEEDS, DEFAULT_STOPS]
  · norm_num [turnCar, mkVehicle, Vehicle.speed, VEHICLE_SPEEDS, DEFAULT_STOPS]

/-- C5 amended: a right-direction motion step either leaves the
position unchanged, advances exactly one class-speed unit along x
(straight and pre-turn movement), advances exactly one class-speed unit
along y (post-turn movement), or, in the rotation phase, applies the
fixed diagonal displacement of 2 along x and 1.8 along y independent of
class speed; the left straight mover likewise moves by exactly one
class-speed unit along x or not at all. -/
theorem motion_step_shape (cg cy idx : ℕ) (pred : Option Vehicle) (v : Vehicle) :
    (((moveRight cg cy idx pred v).x = v.x ∧ (moveRight cg cy idx pred v).y = v.y) ∨
     ((moveRight cg cy idx pred v).x = v.x + v.speed ∧ (moveRight cg cy idx pred v).y = v.y) ∨
     ((moveRight cg cy idx pred v).y = v.y + v.speed ∧ (moveRight cg cy idx pred v).x = v.x) ∨
     ((moveRight cg cy idx pred v).x = v.x + 2 ∧ (moveRight cg cy idx pred v).y = v.y + 1.8)) ∧
    (((moveLeftStraight cg cy idx pred v).x = v.x ∧
        (moveLeftStraight cg cy idx pred v).y = v.y) ∨
     ((moveLeftStraight cg cy idx pred v).x = v.x - v.speed ∧
        (moveLeftStraight cg cy idx pred v).y = v.y)) := by
  constructor
  · unfold moveRight moveRightTurn moveRightStraight
    split_ifs <;> simp
  · unfold moveLeftStraight
    split_ifs <;> simp

/-- C6: crossing transition.  An already crossed vehicle is left
untouched, so the flag flips at most once; an uncrossed vehicle is left
untouched exactly while its leading edge has not passed the stop line
of its direction; on the single transition the crossing tick is
recorded, the wait duration is appended to the series, the crossed
counter is incremented, and the recorded tick is at least the spawn
tick whenever the clock is. -/
theorem crossing_transition_spec (env : CrossingEnv) (v : Vehicle) :
    (v.crossed = true → checkCrossing env v = (v, env)) ∧
    (v.crossed = false → leadPastLine v = false → checkCrossing env v = (v, env)) ∧
    (v.crossed = false → leadPastLine v = true →
      (checkCrossing env v).1.crossed = true ∧
      (checkCrossing env v).1.cross_time = some env.time_elapsed ∧
      (checkCrossing env v).2.waiting_times
        = env.waiting_times ++ [(env.time_elapsed : ℤ) - (v.spawn_time : ℤ)] ∧
      (checkCrossing env v).2.crossed_count = env.crossed_count + 1 ∧
      (v.spawn_time ≤ env.time_elapsed →
        ∀ t, (checkCrossing env v).1.cross_time = some t → v.spawn_time ≤ t)) := by
  refine ⟨?_, ?_, ?_⟩
  · intro h
    simp [checkCrossing, h]
  · intro h1 h2
    simp [checkCrossing, h1, h2]
  · intro h1 h2
    have hc : checkCrossing env v =
        ({ v with crossed := true, cross_time := some env.time_elapsed },
         { env with
            waiting_times :=
              env.waiting_times ++ [(env.time_elapsed : ℤ) - (v.spawn_time : ℤ)],
            crossed_count := env.crossed_count + 1 }) := by
      simp [checkCrossing, h1, h2]
    rw [hc]
    refine ⟨rfl, rfl, rfl, rfl, ?_⟩
    intro hle t ht
    have h3 : some env.time_elapsed = some t := ht
    injection h3 with h4
    rw [← h4]
    exact hle

/-- Witness for C6: a car past the right stop line at clock 5, spawned
at tick 2, crosses with wait 3 and bumps the counter to 1. -/
theorem crossing_transition_spec_witness :
    (checkCrossing ⟨5, [], 0⟩ crossingCar).1.crossed = true ∧
    (checkCrossing ⟨5, [], 0⟩ crossingCar).2.waiting_times = [3] ∧
    (checkCrossing ⟨5, [], 0⟩ crossingCar).2.crossed_count = 1 := by
  have h := (crossing_transition_spec ⟨5, [], 0⟩ crossingCar).2.2 rfl
    (by norm_num [leadPastLine, crossingCar, mkVehicle, STOP_LINES, DEFAULT_STOPS])
  refine ⟨h.1, ?_, h.2.2.2.1⟩
  rw [h.2.2.1]
  norm_num [crossingCar, mkVehicle, DEFAULT_STOPS]

/-- C3: green-time sizing at selection.  The assigned green duration is
the rounded nonlinear formula clamped to the 10 to 60 bounds, hence it
always lies in that interval, and a waiting count of zero yields the
minimum 10 because the clamp overrides the rounded value 8. -/
theorem green_time_sizing_clamped (n : ℕ) :
    nonlinearGreenTime n
      = max DEFAULT_MINIMUM
          (min DEFAULT_MAXIMUM (round ((8 : ℝ) + (n : ℝ) ^ (0.85 : ℝ)))) ∧
    DEFAULT_MINIMUM ≤ nonlinearGreenTime n ∧
    nonlinearGreenTime n ≤ DEFAULT_MAXIMUM ∧
    nonlinearGreenTime 0 = DEFAULT_MINIMUM ∧
    round ((8 : ℝ) + (0 : ℕ) ^ (0.85 : ℝ)) = 8 := by
  refine ⟨rfl, le_max_left _ _, ?_, ?_, ?_⟩
  · exact max_le (by norm_num [DEFAULT_MINIMUM, DEFAULT_MAXIMUM]) (min_le_left _ _)
  · unfold nonlinearGreenTime
    rw [Nat.cast_zero, Real.zero_rpow (by norm_num)]
    norm_num [round_eq, DEFAULT_MINIMUM, DEFAULT_MAXIMUM]
  · rw [Nat.cast_zero, Real.zero_rpow (by norm_num)]
    norm_num [round_eq]

/-- C7 counterexample: with 31 uncrossed emergency vehicles waiting on
the next approach, a class absent from the clearance table, the
detection computation yields 11 and not the configured minimum 10: the
missing entry is replaced by the default cost 1 instead of forcing the
minimum green. -/
theorem look_ahead_missing_entry_cex :
    calculate_green_time wEmergency31 3 = 11 ∧
    (11 : ℤ) ≠ DEFAULT_MINIMUM ∧
    VEHICLE_TIMES .emergency = none := by
  refine ⟨?_, by norm_num [DEFAULT_MINIMUM], rfl⟩
  have hceil : ⌈(31 : ℚ) / 3⌉ = 11 := by
    rw [Int.ceil_eq_iff]
    norm_num
  simp [calculate_green_time, lookAheadTotal, countClass, wEmergency31, dirState,
    DIRECTIONS, emptyWorld, emptyDir, emR, mkVehicle, DirState.allVehicles,
    vehicleTimeOrDefault, VEHICLE_TIMES, NO_OF_LANES, DEFAULT_MINIMUM,
    DEFAULT_MAXIMUM, DEFAULT_STOPS, List.filter_replicate]
  norm_num [hceil]

/-- C7 amended: the detection-window value equals the ceiling of the
weighted clearance total over the lane count plus one, clamped to the
green bounds, where a vehicle class without a clearance entry
contributes cost 1 per vehicle; the result always lies in the bounds,
and when no uncrossed vehicle is present on the sampled approach it
equals the configured minimum green 10. -/
theorem look_ahead_green_amended (w : World) (cg : Fin 4) :
    calculate_green_time w cg
      = max DEFAULT_MINIMUM (min DEFAULT_MAXIMUM
          ⌈lookAheadTotal (dirState w (DIRECTIONS (cg + 1))) / ((NO_OF_LANES : ℚ) + 1)⌉) ∧
    DEFAULT_MINIMUM ≤ calculate_green_time w cg ∧
    calculate_green_time w cg ≤ DEFAULT_MAXIMUM ∧
    vehicleTimeOrDefault .emergency = 1 ∧
    ((∀ c, countClass (dirState w (DIRECTIONS (cg + 1))) c = 0) →
      calculate_green_time w cg = DEFAULT_MINIMUM) := by
  refine ⟨rfl, le_max_left _ _, ?_, rfl, ?_⟩
  · exact max_le (by norm_num [DEFAULT_MINIMUM, DEFAULT_MAXIMUM]) (min_le_left _ _)
  · intro h
    have htot : lookAheadTotal (dirState w (DIRECTIONS (cg + 1))) = 0 := by
      simp [lookAheadTotal, h]
    unfold calculate_green_time
    rw [htot]
    norm_num [DEFAULT_MINIMUM, DEFAULT_MAXIMUM]

/-- Witness for C7 at the empty world: no vehicle to sample yields the
minimum green. -/
theorem look_ahead_green_amended_witness :
    calculate_green_time emptyWorld 0 = DEFAULT_MINIMUM :=
  (look_ahead_green_amended emptyWorld 0).2.2.2.2 (fun c => by cases c <;> rfl)

/-- C8: yellow-entry stop reset.  The transition sets current_yellow to
1, replaces every lane queue of the active approach by the same queue
with each vehicle's stop position reset to the direction's default,
leaves the crossed counter and the three other approaches untouched,
and the per-vehicle reset changes no field other than stop. -/
theorem yellow_entry_frame (w : World) (cg : Fin 4) :
    (yellowEntry cg w).2 = 1 ∧
    (∀ d : Direction, d ≠ DIRECTIONS cg →
      dirState (yellowEntry cg w).1 d = dirState w d) ∧
    (∀ ln : Fin 3, laneGet (dirState (yellowEntry cg w).1 (DIRECTIONS cg)) ln
        = (laneGet (dirState w (DIRECTIONS cg)) ln).map (setStopDefault (DIRECTIONS cg))) ∧
    (dirState (yellowEntry cg w).1 (DIRECTIONS cg)).crossed
        = (dirState w (DIRECTIONS cg)).crossed ∧
    (∀ d v, (setStopDefault d v).stop = DEFAULT_STOPS d ∧
      (setStopDefault d v).lane = v.lane ∧
      (setStopDefault d v).vehicleClass = v.vehicleClass ∧
      (setStopDefault d v).direction = v.direction ∧
      (setStopDefault d v).x = v.x ∧
      (setStopDefault d v).y = v.y ∧
      (setStopDefault d v).w = v.w ∧
      (setStopDefault d v).h = v.h ∧
      (setStopDefault d v).crossed = v.crossed ∧
      (setStopDefault d v).will_turn = v.will_turn ∧
      (setStopDefault d v).turned = v.turned ∧
      (setStopDefault d v).rotate_angle = v.rotate_angle ∧
      (setStopDefault d v).waiting_time = v.waiting_time ∧
      (setStopDefault d v).spawn_time = v.spawn_time ∧
      (setStopDefault d v).cross_time = v.cross_time) := by
  refine ⟨?_, ?_, ?_, ?_, ?_⟩
  · fin_cases cg <;> rfl
  · fin_cases cg <;> (intro d hd; cases d <;> first | rfl | exact absurd rfl hd)
  · fin_cases cg <;> (intro ln; fin_cases ln <;> rfl)
  · fin_cases cg <;> rfl
  · intro d v
    exact ⟨rfl, rfl, rfl, rfl, rfl, rfl, rfl, rfl, rfl, rfl, rfl, rfl, rfl, rfl, rfl⟩

/-- Witness for C8: entering yellow on signal 0 leaves the down
approach untouched and raises the yellow flag. -/
theorem yellow_entry_frame_witness :
    dirState (yellowEntry 0 wEmergencyPair).1 .down = dirState wEmergencyPair .down ∧
    (yellowEntry 0 wEmergencyPair).2 = 1 := by
  have h := yellow_entry_frame wEmergencyPair 0
  exact ⟨h.2.1 .down (by decide), h.1⟩

/-- C2 counterexample: with five waiting vehicles each on approach 0
and approach 1 and equal times since last served, the two priorities
tie, and the scheduler selects approach 1, the highest tied index, not
the lowest as the claim states. -/
theorem normal_selection_tie_cex :
    priorityOf wTie 0 lgZero 0 = priorityOf wTie 0 lgZero 1 ∧
    selectNormal wTie 0 lgZero = some 1 ∧
    (1 : Fin 4) ≠ 0 := by
  refine ⟨?_, ?_, by decide⟩
  · simp [priorityOf, wTie, waitingCountDir, dirState, DIRECTIONS, emptyWorld,
      emptyDir, carR, carD, mkVehicle, DirState.allVehicles, lgZero, DEFAULT_STOPS,
      List.filter_replicate]
  · simp [selectNormal, normalEntries, priorityOf, wTie, waitingCountDir, dirState,
      DIRECTIONS, emptyWorld, emptyDir, carR, carD, mkVehicle, DirState.allVehicles,
      lgZero, DEFAULT_STOPS, List.filter_replicate]
    norm_num [List.filter, betterEntry]

/-- C2 amended: when the normal branch selects an approach, that
approach has positive priority and its priority is maximal, ties being
broken by the highest approach index; when it selects none, no approach
has positive priority; the priority is the waiting count plus 0.2 times
the seconds since last served for approaches with waiting vehicles and
zero otherwise; and in the scenario of 12 versus 3 waiting vehicles
with 40 versus 5 seconds since last served the priorities are 20 and 4
and the first approach is selected. -/
theorem normal_selection_amended :
    (∀ w tl lg r, selectNormal w tl lg = some r →
      0 < priorityOf w tl lg r ∧
      ∀ i, priorityOf w tl lg i ≤ priorityOf w tl lg r ∧
        (priorityOf w tl lg i = priorityOf w tl lg r → i ≤ r)) ∧
    (∀ w tl lg, selectNormal w tl lg = none → ∀ i, priorityOf w tl lg i ≤ 0) ∧
    (∀ w tl lg i, 0 < waitingCountDir (dirState w (DIRECTIONS i)) →
      priorityOf w tl lg i
        = (waitingCountDir (dirState w (DIRECTIONS i)) : ℚ)
            + (0.2 : ℚ) * ((tl - lg i : ℤ) : ℚ)) ∧
    (∀ w tl lg i, waitingCountDir (dirState w (DIRECTIONS i)) = 0 →
      priorityOf w tl lg i = 0) ∧
    (priorityOf wScenario 40 lgScenario 0 = 20 ∧
     priorityOf wScenario 40 lgScenario 1 = 4 ∧
     selectNormal wScenario 40 lgScenario = some 0) := by
  refine ⟨?_, ?_, ?_, ?_, ?_, ?_, ?_⟩
  · intro w tl lg r hr
    cases hpos : (normalEntries w tl lg).filter (fun e => decide (0 < e.1)) with
    | nil => simp [selectNormal, hpos] at hr
    | cons e rest =>
      simp only [selectNormal, hpos] at hr
      have hmem : rest.foldl betterEntry e = e ∨ rest.foldl betterEntry e ∈ rest :=
        foldl_betterEntry_mem rest e
      have hmfil : rest.foldl betterEntry e
          ∈ (normalEntries w tl lg).filter (fun e => decide (0 < e.1)) := by
        rw [hpos]
        rcases hmem with h | h
        · rw [h]; exact List.mem_cons_self _ _
        · exact List.mem_cons_of_mem _ h
      have hent := List.mem_filter.mp hmfil
      have hm1 : 0 < (rest.foldl betterEntry e).1 := by simpa using hent.2
      have hform : (rest.foldl betterEntry e).1
          = priorityOf w tl lg (rest.foldl betterEntry e).2 := by
        have h := hent.1
        simp only [normalEntries, List.mem_cons, List.mem_singleton,
          List.not_mem_nil, or_false] at h
        rcases h with h | h | h | h <;> rw [h]
      have hr2 : (rest.foldl betterEntry e).2 = r := by
        simpa using hr
      have hrpos : 0 < priorityOf w tl lg r := by
        rw [← hr2, ← hform]; exact hm1
      refine ⟨hrpos, ?_⟩
      intro i
      by_cases hi : 0 < priorityOf w tl lg i
      · have hmemi : (priorityOf w tl lg i, i)
            ∈ (normalEntries w tl lg).filter (fun e => decide (0 < e.1)) :=
          List.mem_filter.mpr ⟨mem_normalEntries w tl lg i, by simpa using hi⟩
        rw [hpos] at hmemi
        have hle : lexLE (priorityOf w tl lg i, i) (rest.foldl betterEntry e) := by
          rcases List.mem_cons.mp hmemi with he | hrest
          · exact he ▸ (foldl_betterEntry_ge rest e).1
          · exact (foldl_betterEntry_ge rest e).2 _ hrest
        rcases hle with hlt | ⟨heq, hle2⟩
        · have hlt2 : priorityOf w tl lg i < priorityOf w tl lg r := by
            rw [← hr2, ← hform]; exact hlt
          exact ⟨le_of_lt hlt2, fun he => absurd (he ▸ hlt2) (lt_irrefl _)⟩
        · have heq2 : priorityOf w tl lg i = priorityOf w tl lg r := by
            rw [← hr2, ← hform]; exact heq
          exact ⟨le_of_eq heq2, fun _ => hr2 ▸ hle2⟩
      · refine ⟨le_trans (le_of_not_lt hi) (le_of_lt hrpos), ?_⟩
        intro he
        exact absurd (by rw [he]; exact hrpos) hi
  · intro w tl lg hnone i
    cases hpos : (normalEntries w tl lg).filter (fun e => decide (0 < e.1)) with
    | nil =>
      have h := List.filter_eq_nil_iff.mp hpos _ (mem_normalEntries w tl lg i)
      simp only [decide_eq_true_eq] at h
      exact le_of_not_lt h
    | cons e rest => simp [selectNormal, hpos] at hnone
  · intro w tl lg i h
    simp [priorityOf, h]
  · intro w tl lg i h
    simp [priorityOf, h]
  · simp [priorityOf, wScenario, waitingCountDir, dirState, DIRECTIONS, emptyWorld,
      emptyDir, carR, mkVehicle, DirState.allVehicles, lgScenario, DEFAULT_STOPS,
      List.filter_replicate]
    norm_num
  · simp [priorityOf, wScenario, waitingCountDir, dirState, DIRECTIONS, emptyWorld,
      emptyDir, carD, mkVehicle, DirState.allVehicles, lgScenario, DEFAULT_STOPS,
      List.filter_replicate]
    norm_num
  · simp [selectNormal, normalEntries, priorityOf, wScenario, waitingCountDir,
      dirState, DIRECTIONS, emptyWorld, emptyDir, carR, carD, mkVehicle,
      DirState.allVehicles, lgScenario, DEFAULT_STOPS, List.filter_replicate]
    norm_num [List.filter, betterEntry]

/-- Witness for C2 in the scenario world: the selected approach 0 has
positive priority and dominates approach 1. -/
theorem normal_selection_amended_witness :
    0 < priorityOf wScenario 40 lgScenario 0 ∧
    priorityOf wScenario 40 lgScenario 1 ≤ priorityOf wScenario 40 lgScenario 0 := by
  have h := normal_selection_amended.1 wScenario 40 lgScenario 0 (by
    simp [selectNormal, normalEntries, priorityOf, wScenario, waitingCountDir,
      dirState, DIRECTIONS, emptyWorld, emptyDir, carR, carD, mkVehicle,
      DirState.allVehicles, lgScenario, DEFAULT_STOPS, List.filter_replicate]
    norm_num [List.filter, betterEntry])
  exact ⟨h.1, (h.2 1).1⟩

end Traffic
